import Mathlib

/-!
Shallow embedding of the health/readiness aggregation and the dynamic
log-level control of the go-base-ms service, with theorems checking the
specification's claims against the code.

Sources embedded:
- internal/logger/logger.go (init, SetLevel, GetLevel)
- internal/health (Status, Check, Checker, Liveness, Readiness)
- internal/api/router.go (liveness, hello, echo, version handlers)
-/

namespace Logger

/-- slog.LevelDebug as an integer, as in Go's log/slog package. -/
def levelDebug : Int := -4

/-- slog.LevelInfo. -/
def levelInfo : Int := 0

/-- slog.LevelWarn. -/
def levelWarn : Int := 4

/-- slog.LevelError. -/
def levelError : Int := 8

/-- logger.go lines 15-22 (package init): reads the LOG_LEVEL environment
variable; os.Getenv yields the empty string when the variable is unset.
Only the exact string "debug" is recognized; everything else yields info. -/
def initLevel (logLevelEnv : String) : Int :=
  if logLevelEnv = "debug" then levelDebug else levelInfo

/-- logger.go SetLevel (lines 33-50): switch over the candidate string.
Returns the optional error message together with the stored level after
the call; the default branch reports the error and leaves the level. -/
def setLevel (level : String) (st : Int) : Option String × Int :=
  if level = "debug" then (none, levelDebug)
  else if level = "info" then (none, levelInfo)
  else if level = "warn" then (none, levelWarn)
  else if level = "error" then (none, levelError)
  else (some ("invalid log level: " ++ level), st)

/-- logger.go GetLevel (lines 52-68): switch over the stored slog level. -/
def getLevel (st : Int) : String :=
  if st = levelDebug then "debug"
  else if st = levelInfo then "info"
  else if st = levelWarn then "warn"
  else if st = levelError then "error"
  else "unknown"

/-- The stored level after a sequence of SetLevel calls, successful or
failed, applied in order to an initial stored level. -/
def runSetLevels (cmds : List String) (st : Int) : Int :=
  cmds.foldl (fun s c => (setLevel c s).2) st

/-- The stored level is one of the four slog constants. -/
def ValidLevel (st : Int) : Prop :=
  st = levelDebug ∨ st = levelInfo ∨ st = levelWarn ∨ st = levelError

lemma validLevel_init (env : String) : ValidLevel (initLevel env) := by
  unfold initLevel ValidLevel
  split <;> simp

lemma validLevel_setLevel (c : String) (st : Int) (h : ValidLevel st) :
    ValidLevel (setLevel c st).2 := by
  unfold setLevel ValidLevel
  split
  · simp
  · split
    · simp
    · split
      · simp
      · split
        · simp
        · exact h

lemma validLevel_run (cmds : List String) (st : Int) (h : ValidLevel st) :
    ValidLevel (runSetLevels cmds st) := by
  induction cmds generalizing st with
  | nil => exact h
  | cons c cs ih =>
    exact ih _ (validLevel_setLevel c st h)

end Logger

/-- Claim C2: for every input string outside the set of four level names,
SetLevel reports an error naming the invalid input and the stored level is
unchanged, so GetLevel after the failed call equals GetLevel before it. -/
theorem setLevel_invalid_no_mutation (s : String) (st : Int)
    (h : s ≠ "debug" ∧ s ≠ "info" ∧ s ≠ "warn" ∧ s ≠ "error") :
    (Logger.setLevel s st).1 = some ("invalid log level: " ++ s) ∧
    (Logger.setLevel s st).2 = st ∧
    Logger.getLevel (Logger.setLevel s st).2 = Logger.getLevel st := by
  obtain ⟨h1, h2, h3, h4⟩ := h
  simp [Logger.setLevel, h1, h2, h3, h4]

/-- Witness for C2 at the invalid input "trace". -/
theorem setLevel_invalid_no_mutation_witness :
    (Logger.setLevel "trace" 0).1 = some ("invalid log level: " ++ "trace") ∧
    (Logger.setLevel "trace" 0).2 = 0 ∧
    Logger.getLevel (Logger.setLevel "trace" 0).2 = Logger.getLevel 0 :=
  setLevel_invalid_no_mutation "trace" 0 (by decide)

/-- Claim C3: for every string among the four level names and every prior
stored level, SetLevel succeeds and a subsequent GetLevel returns exactly
the string that was set. -/
theorem setLevel_valid_roundtrip (s : String) (st : Int)
    (h : s = "debug" ∨ s = "info" ∨ s = "warn" ∨ s = "error") :
    (Logger.setLevel s st).1 = none ∧
    Logger.getLevel (Logger.setLevel s st).2 = s := by
  rcases h with h | h | h | h <;> subst h <;>
    simp [Logger.setLevel, Logger.getLevel, Logger.levelDebug,
      Logger.levelInfo, Logger.levelWarn, Logger.levelError]

/-- Witness for C3 at the valid input "warn". -/
theorem setLevel_valid_roundtrip_witness :
    (Logger.setLevel "warn" 8).1 = none ∧
    Logger.getLevel (Logger.setLevel "warn" 8).2 = "warn" :=
  setLevel_valid_roundtrip "warn" 8 (by simp)

/-- Claim C9: after initialization and any sequence of SetLevel calls, the
stored level is one of the four slog constants and GetLevel returns one of
the four level names, never "unknown". -/
theorem getLevel_always_enumerated (env : String) (cmds : List String) :
    Logger.ValidLevel (Logger.runSetLevels cmds (Logger.initLevel env)) ∧
    (Logger.getLevel (Logger.runSetLevels cmds (Logger.initLevel env)) = "debug" ∨
     Logger.getLevel (Logger.runSetLevels cmds (Logger.initLevel env)) = "info" ∨
     Logger.getLevel (Logger.runSetLevels cmds (Logger.initLevel env)) = "warn" ∨
     Logger.getLevel (Logger.runSetLevels cmds (Logger.initLevel env)) = "error") ∧
    Logger.getLevel (Logger.runSetLevels cmds (Logger.initLevel env)) ≠ "unknown" := by
  have hv : Logger.ValidLevel (Logger.runSetLevels cmds (Logger.initLevel env)) :=
    Logger.validLevel_run cmds _ (Logger.validLevel_init env)
  refine ⟨hv, ?_, ?_⟩ <;>
    rcases hv with h | h | h | h <;>
      simp [Logger.getLevel, h, Logger.levelDebug, Logger.levelInfo,
        Logger.levelWarn, Logger.levelError]

/-- Claim C5 (code bug evidence): the claim and the repository README state
that a LOG_LEVEL of "warn" (or "error") sets the initial level accordingly,
but the init function only recognizes "debug": at LOG_LEVEL="warn" the
initial level is info, not warn. -/
theorem initLevel_warn_is_info :
    Logger.getLevel (Logger.initLevel "warn") = "info" ∧
    Logger.getLevel (Logger.initLevel "error") = "info" ∧
    Logger.getLevel (Logger.initLevel "debug") = "debug" ∧
    Logger.getLevel (Logger.initLevel "") = "info" ∧
    Logger.getLevel (Logger.initLevel "invalid") = "info" := by
  refine ⟨?_, ?_, ?_, ?_, ?_⟩ <;>
    simp [Logger.initLevel, Logger.getLevel, Logger.levelDebug, Logger.levelInfo,
      Logger.levelWarn, Logger.levelError]

namespace Health

/-- Go context.Context, reduced to what the health code observes: an
optional absolute deadline and a cancellation flag. -/
structure Context where
  deadline : Option Nat
  cancelled : Bool
deriving DecidableEq, Repr

/-- Semantics of Go's context.WithTimeout(parent, d) at wall-clock time
now: the derived context's deadline is now + d, or the parent's deadline
when that is already earlier; cancellation of the parent carries over. -/
def Context.withTimeout (c : Context) (now d : Nat) : Context :=
  { deadline := some (match c.deadline with
      | none => now + d
      | some p => min p (now + d)),
    cancelled := c.cancelled }

/-- A registered checker, modelled by the outcome of its Ping as a function
of the context it is given: none for success, some message for an error
(the message being err.Error()). -/
def Checker : Type := Context → Option String

/-- health.Status: "healthy" or "unhealthy". -/
inductive Status where
  | healthy
  | unhealthy
deriving DecidableEq, Repr

/-- One entry of the details map built by Readiness: a status string plus
the optional "error" field (present exactly when the ping failed). -/
structure Detail where
  status : String
  error : Option String
deriving DecidableEq, Repr

/-- health.Check: overall status, timestamp, and the details map, kept as
an association list in the order the checkers were iterated. -/
structure Check where
  status : Status
  timestamp : Nat
  details : List (String × Detail)
deriving DecidableEq, Repr

/-- Health.Liveness (part_003 lines 40-45): ignores the registered
checkers, returns healthy with the current time and no details. -/
def liveness (checks : List (String × Checker)) (now : Nat) : Check :=
  { status := Status.healthy, timestamp := now, details := [] }

/-- The bounded sub-context Readiness derives from the request context
(part_003 line 51: context.WithTimeout(ctx, 5*time.Second)). -/
def readinessCtx (ctx : Context) (now : Nat) : Context :=
  Context.withTimeout ctx now 5

/-- Loop body of Readiness (part_003 lines 57-69): pings one checker with
the shared context, clears allHealthy and records an unhealthy entry with
the error text on failure, records a healthy entry on success. -/
def readinessStep (ctx : Context) (acc : Bool × List (String × Detail))
    (c : String × Checker) : Bool × List (String × Detail) :=
  match c.2 ctx with
  | some e => (false, acc.2 ++ [(c.1, { status := "unhealthy", error := some e })])
  | none => (acc.1, acc.2 ++ [(c.1, { status := "healthy", error := none })])

/-- Health.Readiness (part_003 lines 47-81), over a given iteration order
of the checks map: derives the bounded sub-context, folds the loop body
over the checkers, and maps the allHealthy flag to the overall status. -/
def readiness (checks : List (String × Checker)) (ctx : Context) (now : Nat) : Check :=
  let ctx2 := readinessCtx ctx now
  let r := checks.foldl (readinessStep ctx2) (true, [])
  { status := if r.1 then Status.healthy else Status.unhealthy,
    timestamp := now,
    details := r.2 }

/-- The detail entry determined by one ping outcome. -/
def pingDetail (r : Option String) : Detail :=
  match r with
  | some e => { status := "unhealthy", error := some e }
  | none => { status := "healthy", error := none }

/-- Association-list lookup in the details map, first entry wins. -/
def findDetail (ds : List (String × Detail)) (name : String) : Option Detail :=
  match ds with
  | [] => none
  | d :: rest => if d.1 = name then some d.2 else findDetail rest name

lemma readiness_foldl (ctx : Context) (checks : List (String × Checker))
    (b : Bool) (ds : List (String × Detail)) :
    checks.foldl (readinessStep ctx) (b, ds) =
      (b && checks.all (fun c => (c.2 ctx).isNone),
       ds ++ checks.map (fun c => (c.1, pingDetail (c.2 ctx)))) := by
  induction checks generalizing b ds with
  | nil => simp
  | cons c cs ih =>
    cases h : c.2 ctx with
    | some e =>
      simp [readinessStep, h, ih, pingDetail]
    | none =>
      simp [readinessStep, h, ih, pingDetail]

lemma readiness_status_eq (checks : List (String × Checker)) (ctx : Context)
    (now : Nat) :
    (readiness checks ctx now).status =
      (if checks.all (fun c => (c.2 (readinessCtx ctx now)).isNone)
       then Status.healthy else Status.unhealthy) := by
  simp only [readiness]
  rw [readiness_foldl, Bool.true_and]

lemma readiness_details_eq (checks : List (String × Checker)) (ctx : Context)
    (now : Nat) :
    (readiness checks ctx now).details =
      checks.map (fun c => (c.1, pingDetail (c.2 (readinessCtx ctx now)))) := by
  simp [readiness, readiness_foldl]

end Health

namespace Health

lemma findDetail_perm {ds ds' : List (String × Detail)}
    (h : List.Perm ds ds') :
    (ds.map Prod.fst).Nodup →
      ∀ name, findDetail ds name = findDetail ds' name := by
  induction h with
  | nil =>
    intro _ name
    rfl
  | cons x h ih =>
    intro hnd name
    simp only [List.map_cons, List.nodup_cons] at hnd
    by_cases hx : x.1 = name
    · simp [findDetail, hx]
    · simp [findDetail, hx, ih hnd.2 name]
  | swap x y l =>
    intro hnd name
    have hxy : y.1 ≠ x.1 := by
      simp only [List.map_cons, List.nodup_cons, List.mem_cons] at hnd
      exact fun e => hnd.1 (Or.inl e)
    by_cases hx : x.1 = name
    · by_cases hy : y.1 = name
      · exact absurd (hy.trans hx.symm) hxy
      · simp [findDetail, hx, hy]
    · by_cases hy : y.1 = name
      · simp [findDetail, hx, hy]
      · simp [findDetail, hx, hy]
  | trans h1 h2 ih1 ih2 =>
    intro hnd name
    have hnd2 := (h1.map Prod.fst).nodup hnd
    rw [ih1 hnd name, ih2 hnd2 name]

end Health

/-- Claim C1: the overall status of the Check returned by Readiness is
unhealthy iff at least one registered checker's Ping returned an error, and
healthy iff every checker's Ping succeeded. -/
theorem readiness_status_iff (checks : List (String × Health.Checker))
    (ctx : Health.Context) (now : Nat) :
    ((Health.readiness checks ctx now).status = Health.Status.unhealthy ↔
      ∃ c ∈ checks, c.2 (Health.readinessCtx ctx now) ≠ none) ∧
    ((Health.readiness checks ctx now).status = Health.Status.healthy ↔
      ∀ c ∈ checks, c.2 (Health.readinessCtx ctx now) = none) := by
  rw [Health.readiness_status_eq]
  by_cases hall :
      (checks.all fun c => (c.2 (Health.readinessCtx ctx now)).isNone) = true
  · rw [if_pos hall]
    simp only [List.all_eq_true, Option.isNone_iff_eq_none] at hall
    refine ⟨⟨fun h => Health.Status.noConfusion h, fun h => ?_⟩,
      ⟨fun _ => hall, fun _ => rfl⟩⟩
    rcases h with ⟨c, hc, hne⟩
    exact absurd (hall c hc) hne
  · rw [if_neg hall]
    simp only [List.all_eq_true, Option.isNone_iff_eq_none] at hall
    push_neg at hall
    rcases hall with ⟨c, hc, hne⟩
    exact ⟨⟨fun _ => ⟨c, hc, hne⟩, fun _ => rfl⟩,
      ⟨fun h => Health.Status.noConfusion h, fun h => absurd (h c hc) hne⟩⟩

/-- Claim C4: Readiness never propagates a checker error as a call failure;
a failing Ping is captured as data, as a details entry under the checker's
name with status "unhealthy" and the error field holding the message. -/
theorem readiness_error_as_data (checks : List (String × Health.Checker))
    (ctx : Health.Context) (now : Nat) (name : String)
    (checker : Health.Checker) (e : String)
    (hmem : (name, checker) ∈ checks)
    (herr : checker (Health.readinessCtx ctx now) = some e) :
    (name, Health.Detail.mk "unhealthy" (some e)) ∈
      (Health.readiness checks ctx now).details := by
  rw [Health.readiness_details_eq]
  refine List.mem_map.mpr ⟨(name, checker), hmem, ?_⟩
  simp [Health.pingDetail, herr]

/-- Witness for C4: a single database checker failing with a concrete
message appears as an unhealthy details entry. -/
theorem readiness_error_as_data_witness :
    ("database", Health.Detail.mk "unhealthy" (some "connection refused")) ∈
      (Health.readiness
        [("database", (fun _ => some "connection refused" : Health.Checker))]
        ⟨none, false⟩ 0).details :=
  readiness_error_as_data
    [("database", (fun _ => some "connection refused" : Health.Checker))]
    ⟨none, false⟩ 0 "database"
    (fun _ => some "connection refused") "connection refused"
    (List.mem_singleton.mpr rfl) rfl

/-- Claim C6: Readiness derives one bounded sub-context from the request
context and evaluates every checker's Ping at that same shared context;
the derived deadline is the minimum of the caller's deadline and now + 5
time-units, so it exceeds neither bound, and cancellation of the caller's
context carries over to the context the checkers see. -/
theorem readiness_shared_bounded_ctx (checks : List (String × Health.Checker))
    (ctx : Health.Context) (now d : Nat) (h : ctx.deadline = some d) :
    (Health.readiness checks ctx now).details =
      checks.map (fun c => (c.1, Health.pingDetail (c.2 (Health.readinessCtx ctx now)))) ∧
    (Health.readinessCtx ctx now).deadline = some (min d (now + 5)) ∧
    min d (now + 5) ≤ d ∧
    min d (now + 5) ≤ now + 5 ∧
    (Health.readinessCtx ctx now).cancelled = ctx.cancelled := by
  refine ⟨Health.readiness_details_eq checks ctx now, ?_,
    min_le_left _ _, min_le_right _ _, rfl⟩
  simp [Health.readinessCtx, Health.Context.withTimeout, h]

/-- Witness for C6: a cancelled caller context with deadline 3 at time 0
gives the checkers a cancelled context with deadline min 3 5 = 3. -/
theorem readiness_shared_bounded_ctx_witness :
    (Health.readiness [("database", (fun _ => none : Health.Checker))]
        ⟨some 3, true⟩ 0).details =
      [("database", (fun _ => none : Health.Checker))].map
        (fun c => (c.1, Health.pingDetail (c.2 (Health.readinessCtx ⟨some 3, true⟩ 0)))) ∧
    (Health.readinessCtx ⟨some 3, true⟩ 0).deadline = some (min 3 (0 + 5)) ∧
    min 3 (0 + 5) ≤ 3 ∧
    min 3 (0 + 5) ≤ 0 + 5 ∧
    (Health.readinessCtx ⟨some 3, true⟩ 0).cancelled = (⟨some 3, true⟩ : Health.Context).cancelled :=
  readiness_shared_bounded_ctx [("database", (fun _ => none : Health.Checker))]
    ⟨some 3, true⟩ 0 3 rfl

/-- Claim C7: Liveness always returns a Check with status healthy, the
current timestamp (non-zero whenever the clock is), and no details, and
its result does not depend on the registered checkers. -/
theorem liveness_always_healthy (checks checks' : List (String × Health.Checker))
    (now : Nat) (h : now ≠ 0) :
    (Health.liveness checks now).status = Health.Status.healthy ∧
    (Health.liveness checks now).timestamp = now ∧
    (Health.liveness checks now).timestamp ≠ 0 ∧
    (Health.liveness checks now).details = [] ∧
    Health.liveness checks now = Health.liveness checks' now :=
  ⟨rfl, rfl, h, rfl, rfl⟩

/-- Witness for C7 at time 1, comparing an empty checker set with a
failing one. -/
theorem liveness_always_healthy_witness :
    (Health.liveness [] 1).status = Health.Status.healthy ∧
    (Health.liveness [] 1).timestamp = 1 ∧
    (Health.liveness [] 1).timestamp ≠ 0 ∧
    (Health.liveness [] 1).details = [] ∧
    Health.liveness [] 1 =
      Health.liveness [("database", (fun _ => some "down" : Health.Checker))] 1 :=
  liveness_always_healthy [] [("database", (fun _ => some "down" : Health.Checker))]
    1 (by decide)

/-- Claim C8: the details of the Check returned by Readiness hold exactly
one entry per registered checker, keyed by its registered name, and the
observable report — overall status and the name-to-detail mapping — is the
same for every iteration order over the checkers. -/
theorem readiness_order_independent (checks checks' : List (String × Health.Checker))
    (ctx : Health.Context) (now : Nat)
    (hperm : List.Perm checks checks')
    (hnodup : (checks.map Prod.fst).Nodup) :
    ((Health.readiness checks ctx now).details).map Prod.fst = checks.map Prod.fst ∧
    (Health.readiness checks' ctx now).status = (Health.readiness checks ctx now).status ∧
    ∀ name, Health.findDetail ((Health.readiness checks' ctx now).details) name =
      Health.findDetail ((Health.readiness checks ctx now).details) name := by
  refine ⟨?_, ?_, ?_⟩
  · rw [Health.readiness_details_eq, List.map_map]
    rfl
  · rw [Health.readiness_status_eq, Health.readiness_status_eq]
    have hiff :
        ((checks.all fun c => (c.2 (Health.readinessCtx ctx now)).isNone) = true) ↔
        ((checks'.all fun c => (c.2 (Health.readinessCtx ctx now)).isNone) = true) := by
      simp only [List.all_eq_true]
      exact ⟨fun hl c hc => hl c (hperm.mem_iff.mpr hc),
        fun hl c hc => hl c (hperm.mem_iff.mp hc)⟩
    by_cases hall :
        (checks.all fun c => (c.2 (Health.readinessCtx ctx now)).isNone) = true
    · rw [if_pos hall, if_pos (hiff.mp hall)]
    · rw [if_neg hall, if_neg (fun hc => hall (hiff.mpr hc))]
  · intro name
    rw [Health.readiness_details_eq, Health.readiness_details_eq]
    have hmap := hperm.map
      (fun c => (c.1, Health.pingDetail (c.2 (Health.readinessCtx ctx now))))
    have hnd : ((checks.map
        (fun c => (c.1, Health.pingDetail (c.2 (Health.readinessCtx ctx now))))).map
          Prod.fst).Nodup := by
      rw [List.map_map]
      exact hnodup
    exact (Health.findDetail_perm hmap hnd name).symm

/-- Witness for C8: two checkers listed in both orders give the same
status and the same name-to-detail lookups. -/
theorem readiness_order_independent_witness :
    ((Health.readiness
        [("database", (fun _ => some "down" : Health.Checker)),
         ("kafka", (fun _ => none : Health.Checker))] ⟨none, false⟩ 0).details).map
      Prod.fst =
      [("database", (fun _ => some "down" : Health.Checker)),
       ("kafka", (fun _ => none : Health.Checker))].map Prod.fst ∧
    (Health.readiness
        [("kafka", (fun _ => none : Health.Checker)),
         ("database", (fun _ => some "down" : Health.Checker))] ⟨none, false⟩ 0).status =
      (Health.readiness
        [("database", (fun _ => some "down" : Health.Checker)),
         ("kafka", (fun _ => none : Health.Checker))] ⟨none, false⟩ 0).status ∧
    ∀ name, Health.findDetail
        ((Health.readiness
          [("kafka", (fun _ => none : Health.Checker)),
           ("database", (fun _ => some "down" : Health.Checker))] ⟨none, false⟩ 0).details)
        name =
      Health.findDetail
        ((Health.readiness
          [("database", (fun _ => some "down" : Health.Checker)),
           ("kafka", (fun _ => none : Health.Checker))] ⟨none, false⟩ 0).details)
        name :=
  readiness_order_independent
    [("database", (fun _ => some "down" : Health.Checker)),
     ("kafka", (fun _ => none : Health.Checker))]
    [("kafka", (fun _ => none : Health.Checker)),
     ("database", (fun _ => some "down" : Health.Checker))]
    ⟨none, false⟩ 0 (List.Perm.swap _ _ _) (by simp)

namespace Api

/-- version.Info (version package): build information record. -/
structure VersionInfo where
  version : String
  commit : String
  date : String
  builtBy : String
deriving DecidableEq, Repr

/-- version.Get with the default build-time values. -/
def versionGet : VersionInfo :=
  { version := "dev", commit := "none", date := "unknown", builtBy := "unknown" }

/-- Router.livenessHandler (router.go lines 52-55): no method check — it
calls Health.Liveness and responds 200 with the Check for any method. -/
def livenessHandler (checks : List (String × Health.Checker)) (now : Nat)
    (method : String) : Nat × Health.Check :=
  (200, Health.liveness checks now)

/-- Router.helloHandler (router.go lines 68-79): 405 for any method other
than GET, otherwise 200 with the fixed message body. -/
def helloHandler (method : String) : Nat × List (String × String) :=
  if method ≠ "GET" then (405, [("error", "Method not allowed")])
  else (200, [("message", "Hello from Go Base Microservice"), ("version", "1.0.0")])

/-- Router.echoHandler (router.go lines 81-96): 405 for any method other
than POST; the body argument is the decoded JSON object, none when
decoding fails (400), echoed back on success (200). -/
def echoHandler (method : String) (body : Option (List (String × String))) :
    Nat × List (String × String) :=
  if method ≠ "POST" then (405, [("error", "Method not allowed")])
  else
    match body with
    | none => (400, [("error", "Invalid JSON body")])
    | some b => (200, b)

/-- Router.versionHandler (router.go lines 134-142): 405 for any method
other than GET, otherwise 200 with the version info. -/
def versionHandler (method : String) : Nat × Option VersionInfo :=
  if method ≠ "GET" then (405, none) else (200, some versionGet)

end Api

/-- Claim C10: the liveness handler performs no method check — every
method gets 200 with the liveness report and never 405 — while the hello
and version handlers return 405 for any non-GET method and the echo
handler returns 405 for any non-POST method. -/
theorem livenessHandler_ignores_method (checks : List (String × Health.Checker))
    (now : Nat) (method : String) :
    ((Api.livenessHandler checks now method).1 = 200 ∧
     (Api.livenessHandler checks now method).1 ≠ 405 ∧
     (Api.livenessHandler checks now method).2 = Health.liveness checks now) ∧
    (method ≠ "GET" →
      (Api.helloHandler method).1 = 405 ∧ (Api.versionHandler method).1 = 405) ∧
    (method ≠ "POST" → ∀ b, (Api.echoHandler method b).1 = 405) := by
  refine ⟨⟨rfl, ?_, rfl⟩, fun h => ?_, fun h b => ?_⟩
  · simp [Api.livenessHandler]
  · constructor <;> simp [Api.helloHandler, Api.versionHandler, h]
  · simp [Api.echoHandler, h]

/-- Witness for C10 at the method DELETE: liveness answers 200, the other
handlers answer 405. -/
theorem livenessHandler_ignores_method_witness :
    ((Api.livenessHandler [] 1 "DELETE").1 = 200 ∧
     (Api.livenessHandler [] 1 "DELETE").1 ≠ 405 ∧
     (Api.livenessHandler [] 1 "DELETE").2 = Health.liveness [] 1) ∧
    ((Api.helloHandler "DELETE").1 = 405 ∧ (Api.versionHandler "DELETE").1 = 405) ∧
    (Api.echoHandler "DELETE" none).1 = 405 := by
  have h := livenessHandler_ignores_method [] 1 "DELETE"
  exact ⟨h.1, h.2.1 (by decide), h.2.2 (by decide) none⟩
